import Mathlib

/-!
# 3ds Max SDK headers: `ThreadingDebuggingTools.h`, `dpoint2.h`, `TexmapThreadSafe.h`, `CustomFileStreamAPI.h`

A shallow embedding of the inline code of four SDK headers, with the properties
their documentation states.

* `MaxSDK.ThreadingDebuggingTools`: the worker-thread id global and the
  `WorkerThreadSet` guard class (constructor, `Reset`, destructor).
* `DPoint2`: the double-precision 2D point with its inline operators, over a
  bit-level model of IEEE-754 binary64 (`Double`).
* `MaxSDK.TexmapThreadSafe`: the interface id that `GetID` returns.
* `MaxSDK.CustomFileStreamAPI`: the stream header `CustomFileStreamHeader`.

Mutable objects are embedded by explicit state passing: a member function takes
the object (and the globals it touches) and returns them next to its result.
-/

namespace MaxSDK
namespace ThreadingDebuggingTools

/-- Windows `DWORD`: an unsigned 32-bit integer. -/
abbrev DWORD := Fin 4294967296

/-- The value `(DWORD)-1`, default argument of `SetWorkerThread` and of the
`WorkerThreadSet` constructor. -/
def DWORD_MINUS_ONE : DWORD := ⟨4294967295, by decide⟩

/-- Global state of the threading debugging tools that the worker-thread
functions read and write: the worker thread id, `0` when none is set. -/
structure Globals where
  workerThread : DWORD
deriving DecidableEq, Repr

/-- State at start-up: no worker thread is set. -/
def Globals.initial : Globals := ⟨0⟩

/-- Modelled from the spec: `GetWorkerThread` is declared in the header without a
body (`UtilExport DWORD GetWorkerThread();`). Its documentation: "Returns the
worker thread id set via SetWorkerThread. If no worker thread is set, the
returned value is 0." -/
def GetWorkerThread (g : Globals) : DWORD := g.workerThread

/-- Modelled from the spec: `SetWorkerThread` is declared in the header without a
body (`UtilExport void SetWorkerThread(DWORD threadID = (DWORD)-1);`). Its
documentation: "Sets the worker thread id [...] If a threadID value of -1 is
used, the worker thread id is set to the current thread id". `cur` is the id of
the calling thread. -/
def SetWorkerThread (cur : DWORD) (g : Globals) (threadID : DWORD) : Globals :=
  { g with workerThread := if threadID = DWORD_MINUS_ONE then cur else threadID }

/-- Modelled from the spec: `ClearWorkerThread` is declared in the header without
a body. Its documentation: "Clears the worker thread id value."; a cleared id
reads back as `0` (see `GetWorkerThread`). -/
def ClearWorkerThread (g : Globals) : Globals :=
  { g with workerThread := 0 }

/-- The data members of `class WorkerThreadSet`. -/
structure WorkerThreadSet where
  mOriginalWorkerThreadID : DWORD
  mResetCalled : Bool
deriving DecidableEq, Repr

/-- Source: `WorkerThreadSet(DWORD threadID = (DWORD)-1) : mResetCalled(false)
{ mOriginalWorkerThreadID = GetWorkerThread(); SetWorkerThread(threadID); }`,
run by the thread whose id is `cur`. Returns the new object and the globals. -/
def WorkerThreadSet.construct (cur : DWORD) (g : Globals) (threadID : DWORD) :
    WorkerThreadSet × Globals :=
  let self : WorkerThreadSet :=
    { mOriginalWorkerThreadID := GetWorkerThread g, mResetCalled := false }
  (self, SetWorkerThread cur g threadID)

/-- Source: `void Reset() { if (!mResetCalled) SetWorkerThread(mOriginalWorkerThreadID);
mResetCalled = true; }`, run by the thread whose id is `cur`. -/
def WorkerThreadSet.Reset (cur : DWORD) (self : WorkerThreadSet) (g : Globals) :
    WorkerThreadSet × Globals :=
  let g1 := if !self.mResetCalled then SetWorkerThread cur g self.mOriginalWorkerThreadID else g
  ({ self with mResetCalled := true }, g1)

/-- Source: `~WorkerThreadSet() { Reset(); }`: the object is gone afterwards, the globals
remain. -/
def WorkerThreadSet.destruct (cur : DWORD) (self : WorkerThreadSet) (g : Globals) : Globals :=
  (WorkerThreadSet.Reset cur self g).2

/-- A value that identifies a thread: any `DWORD` except `(DWORD)-1`, which the
API reserves to mean "the current thread". -/
def IsThreadId (t : DWORD) : Prop := t ≠ DWORD_MINUS_ONE

instance (t : DWORD) : Decidable (IsThreadId t) := by
  unfold IsThreadId; infer_instance

/-- A worker-thread id that the API can put in effect: the globals reached from
start-up by `SetWorkerThread` and `ClearWorkerThread` calls of threads whose ids
are thread ids. -/
inductive InEffect : Globals → Prop
  | initial : InEffect Globals.initial
  | set (cur : DWORD) (g : Globals) (threadID : DWORD) :
      IsThreadId cur → InEffect g → InEffect (SetWorkerThread cur g threadID)
  | clear (g : Globals) : InEffect g → InEffect (ClearWorkerThread g)

end ThreadingDebuggingTools
end MaxSDK

/-! ## The C++ `double`

`dpoint2.h` computes with the built-in `double`. On the SDK's target (x64,
SSE2 scalar arithmetic, default rounding mode) that is IEEE-754 binary64 with
round-to-nearest, ties-to-even. The model below is bit-exact: a datum is its
sign bit, 11-bit biased exponent and 52-bit fraction. A NaN operand is delivered
quieted as the result. When both operands are NaNs the instruction delivers its
destination operand; for the commutative `+` and `*` the compiler is free to
make either operand the destination at each place of the program, so `add` and
`mul` take that choice as a parameter (`Dest`). For `-` and `/` the destination
is the left operand. -/

/-- An IEEE-754 binary64 datum. -/
structure Double where
  sign : Bool
  expo : Fin 2048
  frac : Fin 4503599627370496
deriving DecidableEq, Repr

namespace Double

/-- Build a datum from a sign and two field values, reduced to the field widths. -/
def ofFields (s : Bool) (e f : Nat) : Double :=
  ⟨s, ⟨e % 2048, Nat.mod_lt _ (by decide)⟩, ⟨f % 4503599627370496, Nat.mod_lt _ (by decide)⟩⟩

/-- The datum with the given 64-bit pattern. -/
def ofBits (n : Nat) : Double :=
  ofFields (decide (n / 9223372036854775808 % 2 = 1)) (n / 4503599627370496) n

/-- The 64-bit pattern of a datum. -/
def toBits (d : Double) : Nat :=
  (if d.sign then 9223372036854775808 else 0) + d.expo.val * 4503599627370496 + d.frac.val

/-- A NaN: exponent field all ones, fraction not zero. -/
def isNaN (d : Double) : Bool := d.expo.val == 2047 && d.frac.val != 0

/-- An infinity: exponent field all ones, fraction zero. -/
def isInf (d : Double) : Bool := d.expo.val == 2047 && d.frac.val == 0

/-- A zero of either sign. -/
def isZero (d : Double) : Bool := d.expo.val == 0 && d.frac.val == 0

/-- Signed zero; `zero false` is the literal `0.0`. -/
def zero (s : Bool) : Double := ofFields s 0 0

/-- Signed infinity. -/
def inf (s : Bool) : Double := ofFields s 2047 0

/-- The literal `1.0`. -/
def one : Double := ofFields false 1023 0

/-- The NaN an invalid operation (`inf - inf`, `0 * inf`, `0 / 0`, `inf / inf`)
delivers on x64: the default quiet NaN, sign bit set. -/
def defaultNaN : Double := ofFields true 2047 2251799813685248

/-- A NaN operand is delivered as result with its quiet bit set. -/
def quiet (d : Double) : Double :=
  ofFields d.sign d.expo.val (d.frac.val % 2251799813685248 + 2251799813685248)

/-- Integer significand of a finite datum: the fraction for a subnormal, with
the hidden bit for a normal number. -/
def mant (d : Double) : Nat :=
  if d.expo.val = 0 then d.frac.val else 4503599627370496 + d.frac.val

/-- Exponent of the unit in the last place of a finite datum: its value is
`± mant * 2 ^ ulpExp`. -/
def ulpExp (d : Double) : Int :=
  if d.expo.val = 0 then -1074 else (d.expo.val : Int) - 1075

/-- Number of halvings that bring `n` below 2, at most `fuel` of them. -/
def ilog2Fuel : Nat → Nat → Nat
  | 0, _ => 0
  | fuel + 1, n => if n < 2 then 0 else ilog2Fuel fuel (n / 2) + 1

/-- Integer part `⌊log₂ n⌋` of the binary logarithm of a positive `n`, and 0 for 0:
`n` halvings are always enough. -/
def ilog2 (n : Nat) : Nat := ilog2Fuel n n

/-- Integer part `⌊log₂ (n / d)⌋` of the binary logarithm of a ratio of positive
`n` and `d`. -/
def ilog2Ratio (n d : Nat) : Int :=
  let k : Int := (ilog2 n : Int) - (ilog2 d : Int)
  if 0 ≤ k then
    (if d * 2 ^ k.toNat ≤ n then k else k - 1)
  else
    (if d ≤ n * 2 ^ (-k).toNat then k else k - 1)

/-- The integer nearest to `n / d`, ties to the even one. -/
def roundNearestEven (n d : Nat) : Nat :=
  let q := n / d
  let r := n % d
  if 2 * r < d then q
  else if d < 2 * r then q + 1
  else if q % 2 = 0 then q else q + 1

/-- Round the positive real `n / d * 2 ^ e` (`n`, `d` positive) to binary64 with
sign `s`: round to nearest, ties to even, gradual underflow, overflow to
infinity. -/
def round (s : Bool) (n d : Nat) (e : Int) : Double :=
  let top : Int := ilog2Ratio n d + e
  let u : Int := max top (-1022) - 52
  let sh : Int := e - u
  let m : Nat :=
    if 0 ≤ sh then roundNearestEven (n * 2 ^ sh.toNat) d
    else roundNearestEven n (d * 2 ^ (-sh).toNat)
  let m1 : Nat := if m = 9007199254740992 then 4503599627370496 else m
  let u1 : Int := if m = 9007199254740992 then u + 1 else u
  if m1 < 4503599627370496 then ofFields s 0 m1
  else if 2047 ≤ u1 + 1075 then inf s
  else ofFields s (u1 + 1075).toNat (m1 - 4503599627370496)

/-- Significand of a finite datum with its sign. -/
def signedMant (d : Double) : Int :=
  if d.sign then -(d.mant : Int) else (d.mant : Int)

/-- Conversion of an integer to `double`, as for the literal `0` passed where a
`double` is expected: zero becomes `0.0`, any other value is rounded. -/
def ofInt (i : Int) : Double :=
  if i = 0 then zero false else round (decide (i < 0)) i.natAbs 1 0

/-- Unary `-` on a `double`: the sign bit is flipped. -/
def neg (a : Double) : Double := { a with sign := !a.sign }

/-- The operand of a `+` or `*` that the compiled instruction has as its
destination. It shows in the result only when both operands are NaNs. -/
inductive Dest where
  | left
  | right
deriving DecidableEq, Repr

/-- Result of a `+` or `*` with a NaN operand: the NaN operand, quieted; of two
NaN operands, the destination one. -/
def nanResult (dest : Dest) (a b : Double) : Double :=
  match dest with
  | Dest.left => if a.isNaN then a.quiet else b.quiet
  | Dest.right => if b.isNaN then b.quiet else a.quiet

/-- Binary `+` on `double`, compiled with `dest` as destination operand. -/
def add (dest : Dest) (a b : Double) : Double :=
  if a.isNaN || b.isNaN then nanResult dest a b
  else if a.isInf then (if b.isInf && (a.sign != b.sign) then defaultNaN else a)
  else if b.isInf then b
  else
    let e : Int := min a.ulpExp b.ulpExp
    let t : Int := a.signedMant * 2 ^ (a.ulpExp - e).toNat + b.signedMant * 2 ^ (b.ulpExp - e).toNat
    if t = 0 then zero (a.sign && b.sign)
    else round (decide (t < 0)) t.natAbs 1 e

/-- Binary `-` on `double`. With no NaN operand it is the sum with the negated
right operand. -/
def sub (a b : Double) : Double :=
  if a.isNaN then a.quiet
  else if b.isNaN then b.quiet
  else add Dest.left a (neg b)

/-- Binary `*` on `double`, compiled with `dest` as destination operand. -/
def mul (dest : Dest) (a b : Double) : Double :=
  if a.isNaN || b.isNaN then nanResult dest a b
  else if a.isInf || b.isInf then
    (if a.isZero || b.isZero then defaultNaN else inf (a.sign != b.sign))
  else if a.isZero || b.isZero then zero (a.sign != b.sign)
  else round (a.sign != b.sign) (a.mant * b.mant) 1 (a.ulpExp + b.ulpExp)

/-- Binary `/` on `double`. Division by zero is not an error: it delivers an
infinity, or a NaN for `0 / 0`. -/
def div (a b : Double) : Double :=
  if a.isNaN then a.quiet
  else if b.isNaN then b.quiet
  else if a.isInf then (if b.isInf then defaultNaN else inf (a.sign != b.sign))
  else if b.isInf then zero (a.sign != b.sign)
  else if b.isZero then (if a.isZero then defaultNaN else inf (a.sign != b.sign))
  else if a.isZero then zero (a.sign != b.sign)
  else round (a.sign != b.sign) a.mant b.mant (a.ulpExp - b.ulpExp)

/-- Built-in `==` on `double`: false when an operand is a NaN, true for two
zeros of any signs, otherwise equality of the data. -/
def eq (a b : Double) : Bool :=
  if a.isNaN || b.isNaN then false
  else if a.isZero && b.isZero then true
  else decide (a = b)

/-- Built-in `!=` on `double`: true when an operand is a NaN, false for two
zeros of any signs, otherwise inequality of the data. -/
def ne (a b : Double) : Bool :=
  if a.isNaN || b.isNaN then true
  else if a.isZero && b.isZero then false
  else decide (a ≠ b)

end Double

/-! ## `class DPoint2`

Member functions are state transformers: a call returns a record with the value
returned (`ret`) and the objects as they are after the call (`self` for `*this`,
`arg` for an argument passed by reference). A function whose body has a `+` or a
`*` takes the destination operand of each as a parameter (`dx` for the one on
`x`, `dy` for the one on `y`): it is fixed by the compiler for each place the
body is compiled at, and two places need not agree. -/

/-- The data members of `class DPoint2`: `double x, y;`. -/
structure DPoint2 where
  x : Double
  y : Double
deriving DecidableEq, Repr

namespace DPoint2

/-- Outcome of a member call `a.f()` or `a.f(d)` with a scalar argument. -/
structure Call (ρ : Type) where
  ret : ρ
  self : DPoint2

/-- Outcome of a member call `a.f(b)` whose argument is a `DPoint2` object. -/
structure Call2 (ρ : Type) where
  ret : ρ
  self : DPoint2
  arg : DPoint2

/-- What a `double&` into a `DPoint2` refers to. -/
inductive Component where
  | x
  | y
deriving DecidableEq, Repr

/-- Read through a reference to a component. -/
def get (p : DPoint2) : Component → Double
  | Component.x => p.x
  | Component.y => p.y

/-- Write through a reference to a component. -/
def set (p : DPoint2) (c : Component) (v : Double) : DPoint2 :=
  match c with
  | Component.x => { p with x := v }
  | Component.y => { p with y := v }

/-- Conversion of a C++ `bool` to `int`. -/
def boolToInt (b : Bool) : Int := if b then 1 else 0

/-- Source: `DPoint2() : x(0.0), y(0.0) {}`. -/
def ctor : DPoint2 := { x := Double.zero false, y := Double.zero false }

/-- Source: `DPoint2(double X, double Y) { x = X; y = Y; }`. -/
def ctorXY (X Y : Double) : DPoint2 := { x := X, y := Y }

/-- Source: `DPoint2(const DPoint2& a) { x = a.x; y = a.y; }`. -/
def ctorCopy (a : DPoint2) : DPoint2 := { x := a.x, y := a.y }

/-- Outcome of `operator[]`: the value of the `DbgAssert` argument and the
component the returned reference refers to. -/
structure Subscript where
  asserted : Bool
  ref : Component
deriving DecidableEq, Repr

/-- Source: `double& operator[](int i)
{ DbgAssert((i >= 0) && (i <= 1)); return (i == 0) ? x : y; }`. -/
def operatorIndex (i : Int) : Subscript :=
  { asserted := decide (i ≥ 0) && decide (i ≤ 1),
    ref := if i = 0 then Component.x else Component.y }

/-- Source: `const double& operator[](int i) const
{ DbgAssert((i >= 0) && (i <= 1)); return (i == 0) ? x : y; }`. -/
def operatorIndexConst (i : Int) : Subscript :=
  { asserted := decide (i ≥ 0) && decide (i ≤ 1),
    ref := if i = 0 then Component.x else Component.y }

/-- Source: `DPoint2 operator-() const { return(DPoint2(-x, -y)); }`. -/
def operatorNeg (self : DPoint2) : Call DPoint2 :=
  { ret := ctorXY (Double.neg self.x) (Double.neg self.y), self := self }

/-- Source: `DPoint2 operator+() const { return *this; }`. -/
def operatorPos (self : DPoint2) : Call DPoint2 :=
  { ret := ctorCopy self, self := self }

/-- Source: `DPoint2& operator-=(const DPoint2& a) { x -= a.x; y -= a.y; return *this; }`. -/
def operatorSubAssign (self a : DPoint2) : Call2 DPoint2 :=
  let s1 : DPoint2 := { self with x := Double.sub self.x a.x }
  let s2 : DPoint2 := { s1 with y := Double.sub s1.y a.y }
  { ret := s2, self := s2, arg := a }

/-- Source: `DPoint2& operator+=(const DPoint2& a) { x += a.x; y += a.y; return *this; }`. -/
def operatorAddAssign (dx dy : Double.Dest) (self a : DPoint2) : Call2 DPoint2 :=
  let s1 : DPoint2 := { self with x := Double.add dx self.x a.x }
  let s2 : DPoint2 := { s1 with y := Double.add dy s1.y a.y }
  { ret := s2, self := s2, arg := a }

/-- Source: `DPoint2& operator*=(const DPoint2& rhs) { x *= rhs.x; y *= rhs.y; return *this; }`
called with an argument object distinct from `*this`. -/
def operatorMulAssign (dx dy : Double.Dest) (self rhs : DPoint2) : Call2 DPoint2 :=
  let s1 : DPoint2 := { self with x := Double.mul dx self.x rhs.x }
  let s2 : DPoint2 := { s1 with y := Double.mul dy s1.y rhs.y }
  { ret := s2, self := s2, arg := rhs }

/-- Source: `operator*=(const DPoint2& rhs)` called as `a *= a`: `rhs` is `*this`, so
`rhs.y` is read from the object after `x *= rhs.x`. -/
def operatorMulAssignSelf (dx dy : Double.Dest) (self : DPoint2) : Call DPoint2 :=
  let s1 : DPoint2 := { self with x := Double.mul dx self.x self.x }
  let s2 : DPoint2 := { s1 with y := Double.mul dy s1.y s1.y }
  { ret := s2, self := s2 }

/-- Source: `DPoint2& operator*=(double f) { x *= f; y *= f; return *this; }`. -/
def operatorMulAssignScalar (dx dy : Double.Dest) (self : DPoint2) (f : Double) :
    Call DPoint2 :=
  let s1 : DPoint2 := { self with x := Double.mul dx self.x f }
  let s2 : DPoint2 := { s1 with y := Double.mul dy s1.y f }
  { ret := s2, self := s2 }

/-- Source: `DPoint2& operator/=(double f) { x /= f; y /= f; return *this; }`. -/
def operatorDivAssign (self : DPoint2) (f : Double) : Call DPoint2 :=
  let s1 : DPoint2 := { self with x := Double.div self.x f }
  let s2 : DPoint2 := { s1 with y := Double.div s1.y f }
  { ret := s2, self := s2 }

/-- Source: `DPoint2 operator-(const DPoint2& b) const { return(DPoint2(x - b.x, y - b.y)); }`. -/
def operatorSub (self b : DPoint2) : Call2 DPoint2 :=
  { ret := ctorXY (Double.sub self.x b.x) (Double.sub self.y b.y), self := self, arg := b }

/-- Source: `DPoint2 operator+(const DPoint2& b) const { return(DPoint2(x + b.x, y + b.y)); }`. -/
def operatorAdd (dx dy : Double.Dest) (self b : DPoint2) : Call2 DPoint2 :=
  { ret := ctorXY (Double.add dx self.x b.x) (Double.add dy self.y b.y), self := self, arg := b }

/-- Source: `DPoint2 operator*(const DPoint2& b) const { return DPoint2(x * b.x, y * b.y); }`. -/
def operatorMul (dx dy : Double.Dest) (self b : DPoint2) : Call2 DPoint2 :=
  { ret := ctorXY (Double.mul dx self.x b.x) (Double.mul dy self.y b.y), self := self, arg := b }

/-- Source: `int operator==(const DPoint2& p) const { return ((p.x == x) && (p.y == y)); }`. -/
def operatorEq (self p : DPoint2) : Call2 Int :=
  { ret := boolToInt (Double.eq p.x self.x && Double.eq p.y self.y), self := self, arg := p }

/-- Source: `int operator!=(const DPoint2& p) const { return ((p.x != x) || (p.y != y)); }`. -/
def operatorNe (self p : DPoint2) : Call2 Int :=
  { ret := boolToInt (Double.ne p.x self.x || Double.ne p.y self.y), self := self, arg := p }

/-- Source: `inline DPoint2 operator*(double f, const DPoint2& a) { return(DPoint2(a.x*f, a.y*f)); }`. -/
def operatorMulScalarLeft (dx dy : Double.Dest) (f : Double) (a : DPoint2) : DPoint2 :=
  ctorXY (Double.mul dx a.x f) (Double.mul dy a.y f)

/-- Source: `inline DPoint2 operator*(const DPoint2& a, double f) { return(DPoint2(a.x*f, a.y*f)); }`. -/
def operatorMulScalarRight (dx dy : Double.Dest) (a : DPoint2) (f : Double) : DPoint2 :=
  ctorXY (Double.mul dx a.x f) (Double.mul dy a.y f)

/-- Source: `inline DPoint2 operator/(const DPoint2& a, double f) { return(DPoint2(a.x / f, a.y / f)); }`. -/
def operatorDivScalar (a : DPoint2) (f : Double) : DPoint2 :=
  ctorXY (Double.div a.x f) (Double.div a.y f)

end DPoint2

/-! ## `TexmapThreadSafe.h` and `CustomFileStreamAPI.h` -/

namespace MaxSDK

/-- The 32-bit unsigned parts of an interface id. -/
abbrev ULONG := Fin 4294967296

/-- Modelled from the spec: class `Interface_ID` is declared in `BaseInterface.h`,
which is not among the sources. The spec's glossary: "a 64-bit identifier pair
used by 3ds Max's `GetInterface` virtual-dispatch mechanism"; the constructor
call `Interface_ID(a, b)` makes the pair of its two arguments. -/
structure Interface_ID where
  a : ULONG
  b : ULONG
deriving DecidableEq, Repr

/-- Source: `#define ITEXMAP_THREAD_SAFE Interface_ID(0x47956311, 0x2216740a)`. -/
def ITEXMAP_THREAD_SAFE : Interface_ID := { a := 0x47956311, b := 0x2216740a }

namespace TexmapThreadSafe

/-- Outcome of a member call on an object whose state has type `σ`: the value
returned and the object afterwards. -/
structure Call (ρ σ : Type) where
  ret : ρ
  self : σ

/-- Source: `virtual Interface_ID GetID() { return ITEXMAP_THREAD_SAFE; }`. The
class declares no data member of its own; `σ` is the state of the object that
implements the interface. -/
def GetID {σ : Type} (self : σ) : Call Interface_ID σ :=
  { ret := ITEXMAP_THREAD_SAFE, self := self }

end TexmapThreadSafe

namespace CustomFileStreamAPI

/-- Windows `WORD`: an unsigned 16-bit integer. -/
abbrev WORD := Fin 65536

/-- Windows `DWORD`: an unsigned 32-bit integer. -/
abbrev DWORD := Fin 4294967296

/-- Source: `static const WORD kCustomFileStreamVersion = 1;`. -/
def kCustomFileStreamVersion : WORD := 1

/-- The data members of `struct CustomFileStreamHeader`, in declaration order:
`WORD mVersion; DWORD mPrivateFlags; DWORD mPublicFlags;`. -/
structure CustomFileStreamHeader where
  mVersion : WORD
  mPrivateFlags : DWORD
  mPublicFlags : DWORD
deriving DecidableEq, Repr

/-- Source: `CustomFileStreamHeader() {}` with the default member initializers
`mVersion = kCustomFileStreamVersion`, `mPrivateFlags = 0`, `mPublicFlags = 0`. -/
def CustomFileStreamHeader.ctor : CustomFileStreamHeader :=
  { mVersion := kCustomFileStreamVersion, mPrivateFlags := 0, mPublicFlags := 0 }

/-- One field of the stream header: its machine type with its value. -/
inductive HeaderField where
  | word (v : WORD)
  | dword (v : DWORD)
deriving DecidableEq, Repr

/-- Width of a header field in bits. -/
def HeaderField.bits : HeaderField → Nat
  | HeaderField.word _ => 16
  | HeaderField.dword _ => 32

/-- The fields of a stream header, in declaration order. -/
def CustomFileStreamHeader.fields (h : CustomFileStreamHeader) : List HeaderField :=
  [HeaderField.word h.mVersion, HeaderField.dword h.mPrivateFlags,
   HeaderField.dword h.mPublicFlags]

end CustomFileStreamAPI
end MaxSDK

namespace MaxSDK
namespace ThreadingDebuggingTools

/-- Setting an id that is not `(DWORD)-1` stores it as is. -/
theorem GetWorkerThread_SetWorkerThread_of_ne (cur : DWORD) (g : Globals) (t : DWORD)
    (h : t ≠ DWORD_MINUS_ONE) : GetWorkerThread (SetWorkerThread cur g t) = t := by
  simp [GetWorkerThread, SetWorkerThread, h]

/-- No sequence of API calls puts `(DWORD)-1` in effect as the worker thread id. -/
theorem InEffect.ne_minus_one {g : Globals} (h : InEffect g) :
    GetWorkerThread g ≠ DWORD_MINUS_ONE := by
  induction h with
  | initial => decide
  | set cur g t hcur _ _ =>
    by_cases ht : t = DWORD_MINUS_ONE
    · simpa [GetWorkerThread, SetWorkerThread, ht] using hcur
    · simp [GetWorkerThread, SetWorkerThread, ht]
  | clear g _ _ =>
    show (0 : DWORD) ≠ DWORD_MINUS_ONE
    decide

/-- Every id other than `(DWORD)-1` is in effect in some reachable state. -/
theorem InEffect.of_ne_minus_one (g : Globals) (h : GetWorkerThread g ≠ DWORD_MINUS_ONE) :
    InEffect g := by
  have hs : SetWorkerThread 0 Globals.initial g.workerThread = g := by
    cases g with
    | mk w =>
      have hw : w ≠ DWORD_MINUS_ONE := h
      simp [SetWorkerThread, hw]
  rw [← hs]
  exact InEffect.set 0 _ _ (by decide) InEffect.initial

/-- The worker thread id after a construction and destruction, for any id before:
the destructor hands the saved id to `SetWorkerThread`, which reads `(DWORD)-1`
as "the current thread". -/
theorem WorkerThreadSet.construct_destruct_worker (cur₁ cur₂ : DWORD) (g : Globals)
    (threadID : DWORD) :
    GetWorkerThread
        (WorkerThreadSet.destruct cur₂ (WorkerThreadSet.construct cur₁ g threadID).1
          (WorkerThreadSet.construct cur₁ g threadID).2)
      = (if GetWorkerThread g = DWORD_MINUS_ONE then cur₂ else GetWorkerThread g) :=
  rfl

/-- C1: for every worker-thread id in effect beforehand (the globals `g` reached
through the API) and every `threadID` argument, constructing a `WorkerThreadSet`
and then destroying it, with no other call in between, leaves `GetWorkerThread()`
equal to its value before the construction. The constructing and the destroying
thread (`cur₁`, `cur₂`) are arbitrary. -/
theorem WorkerThreadSet.construct_destruct_restores (cur₁ cur₂ : DWORD) (g : Globals)
    (threadID : DWORD) (hg : InEffect g) :
    GetWorkerThread
        (WorkerThreadSet.destruct cur₂ (WorkerThreadSet.construct cur₁ g threadID).1
          (WorkerThreadSet.construct cur₁ g threadID).2)
      = GetWorkerThread g := by
  have hw := hg.ne_minus_one
  simp only [WorkerThreadSet.destruct, WorkerThreadSet.Reset, WorkerThreadSet.construct]
  simp only [Bool.not_false, if_true]
  exact GetWorkerThread_SetWorkerThread_of_ne cur₂ _ _ hw

/-- Witness for C1: worker thread 1234 in effect, `WorkerThreadSet(77)` built by
thread 8 and destroyed by thread 12. -/
theorem WorkerThreadSet.construct_destruct_restores_witness :
    InEffect (SetWorkerThread 8 Globals.initial 1234) ∧
    GetWorkerThread
        (WorkerThreadSet.destruct 12
          (WorkerThreadSet.construct 8 (SetWorkerThread 8 Globals.initial 1234) 77).1
          (WorkerThreadSet.construct 8 (SetWorkerThread 8 Globals.initial 1234) 77).2)
      = GetWorkerThread (SetWorkerThread 8 Globals.initial 1234) :=
  ⟨InEffect.set 8 _ 1234 (by decide) InEffect.initial,
   WorkerThreadSet.construct_destruct_restores 8 12 _ 77
     (InEffect.set 8 _ 1234 (by decide) InEffect.initial)⟩

/-- C2: constructing a `WorkerThreadSet` leaves the globals exactly as
`SetWorkerThread` with the same argument does; right after construction
`GetWorkerThread()` returns the argument when it is not `(DWORD)-1`, and the
current thread id when it is (the default argument). -/
theorem WorkerThreadSet.construct_sets_worker (cur : DWORD) (g : Globals) (threadID : DWORD) :
    (WorkerThreadSet.construct cur g threadID).2 = SetWorkerThread cur g threadID ∧
    GetWorkerThread (WorkerThreadSet.construct cur g threadID).2
      = (if threadID = DWORD_MINUS_ONE then cur else threadID) ∧
    GetWorkerThread (WorkerThreadSet.construct cur g DWORD_MINUS_ONE).2 = cur := by
  refine ⟨rfl, rfl, ?_⟩
  simp [WorkerThreadSet.construct, GetWorkerThread, SetWorkerThread]

end ThreadingDebuggingTools
end MaxSDK

namespace Double

theorem ilog2Fuel_spec (fuel : Nat) : ∀ n : Nat, 0 < n → n ≤ fuel →
    2 ^ ilog2Fuel fuel n ≤ n ∧ n < 2 ^ (ilog2Fuel fuel n + 1) := by
  induction fuel with
  | zero => intro n h0 h1; omega
  | succ fuel ih =>
    intro n h0 h1
    by_cases h2 : n < 2
    · have h3 : n = 1 := by omega
      subst h3
      simp [ilog2Fuel]
    · have h4 := ih (n / 2) (by omega) (by omega)
      simp only [ilog2Fuel, h2, if_false]
      rw [pow_succ, pow_succ 2 (ilog2Fuel fuel (n / 2) + 1)]
      omega

/-- For positive `n`, `ilog2 n` is the integer part of the binary logarithm. -/
theorem ilog2_spec (n : Nat) (h : 0 < n) : 2 ^ ilog2 n ≤ n ∧ n < 2 ^ (ilog2 n + 1) :=
  ilog2Fuel_spec n n h (Nat.le_refl n)

/-- Bit patterns survive decoding and encoding. -/
theorem toBits_ofBits_examples :
    (ofBits 0x3FF0000000000000) = one ∧ one.toBits = 0x3FF0000000000000 ∧
    (ofBits 0xFFF8000000000000) = defaultNaN ∧ (ofBits 0x7FF0000000000000) = inf false ∧
    (ofBits 0x8000000000000000) = zero true := by
  decide

/-- The arithmetic at known values: `0.1 + 0.2` is `0.30000000000000004`,
`1.0 / 3.0` is `0x3FD5555555555555`, `0.1 * 3.0` is `0.30000000000000004`, the
largest finite number times 2 overflows to `+inf`, and the smallest subnormal
minus twice itself is its negative. -/
theorem arithmetic_examples :
    (add Dest.left (ofBits 0x3FB999999999999A) (ofBits 0x3FC999999999999A)).toBits
      = 0x3FD3333333333334 ∧
    (div one (ofBits 0x4008000000000000)).toBits = 0x3FD5555555555555 ∧
    (mul Dest.right (ofBits 0x3FB999999999999A) (ofBits 0x4008000000000000)).toBits
      = 0x3FD3333333333334 ∧
    mul Dest.left (ofBits 0x7FEFFFFFFFFFFFFF) (ofBits 0x4000000000000000) = inf false ∧
    (sub (ofBits 1) (ofBits 2)).toBits = 0x8000000000000001 := by
  decide!

/-- What the built-in `==` decides: neither operand is a NaN, and the operands
are the same datum or are both zeros. -/
theorem eq_true_iff (a b : Double) :
    Double.eq a b = true ↔
      a.isNaN = false ∧ b.isNaN = false ∧ (a = b ∨ (a.isZero = true ∧ b.isZero = true)) := by
  unfold Double.eq
  by_cases ha : a.isNaN = true <;> by_cases hb : b.isNaN = true <;>
    by_cases hz : (a.isZero && b.isZero) = true <;> simp [ha, hb, hz]
  · simp only [Bool.and_eq_true] at hz
    exact Or.inr hz
  · simp only [Bool.and_eq_true, not_and] at hz
    intro h0 h1
    exact absurd h1 (by simpa using hz h0)

/-- The built-in `==` does not depend on the order of its operands. -/
theorem eq_swap (a b : Double) : Double.eq a b = Double.eq b a := by
  unfold Double.eq
  by_cases ha : a.isNaN = true <;> by_cases hb : b.isNaN = true <;>
    by_cases hza : a.isZero = true <;> by_cases hzb : b.isZero = true <;>
    simp [ha, hb, hza, hzb, eq_comm]

/-- The built-in `!=` is the negation of the built-in `==`, NaN operands included. -/
theorem ne_eq_not_eq (a b : Double) : Double.ne a b = !Double.eq a b := by
  unfold Double.ne Double.eq
  by_cases ha : a.isNaN = true <;> by_cases hb : b.isNaN = true <;>
    by_cases hz : (a.isZero && b.isZero) = true <;> simp [ha, hb, hz]

/-- Two NaN operands: the sum and the product are the destination operand,
quieted; the difference and the quotient are the left operand, quieted. -/
theorem nan_operands_examples :
    (add Dest.left (ofBits 0x7FF8000000000001) (ofBits 0xFFF4000000000002)).toBits
      = 0x7FF8000000000001 ∧
    (add Dest.right (ofBits 0x7FF8000000000001) (ofBits 0xFFF4000000000002)).toBits
      = 0xFFFC000000000002 ∧
    (mul Dest.left (ofBits 0x7FF8000000000001) (ofBits 0xFFF4000000000002)).toBits
      = 0x7FF8000000000001 ∧
    (mul Dest.right (ofBits 0x7FF8000000000001) (ofBits 0xFFF4000000000002)).toBits
      = 0xFFFC000000000002 ∧
    (sub (ofBits 0x7FF8000000000001) (ofBits 0xFFF4000000000002)).toBits
      = 0x7FF8000000000001 ∧
    (div (ofBits 0x7FF8000000000001) (ofBits 0xFFF4000000000002)).toBits
      = 0x7FF8000000000001 := by
  decide!

theorem isNaN_quiet (a : Double) (h : a.isNaN = true) : a.quiet.isNaN = true := by
  simp only [isNaN, Bool.and_eq_true, beq_iff_eq, bne_iff_ne, ne_eq] at h
  simp only [isNaN, quiet, ofFields, Bool.and_eq_true, beq_iff_eq, bne_iff_ne, ne_eq]
  omega

theorem isNaN_nanResult (dest : Dest) (a b : Double) (h : (a.isNaN || b.isNaN) = true) :
    (nanResult dest a b).isNaN = true := by
  cases dest <;> by_cases ha : a.isNaN = true <;> by_cases hb : b.isNaN = true <;>
    simp_all [nanResult, isNaN_quiet]

theorem nanResult_dest (c d : Dest) (a b : Double) (h : (a.isNaN || b.isNaN) = true)
    (hab : (a.isNaN && b.isNaN) = false) : nanResult c a b = nanResult d a b := by
  cases c <;> cases d <;> by_cases ha : a.isNaN = true <;> by_cases hb : b.isNaN = true <;>
    simp_all [nanResult]

/-- The destination operand of a product matters only when both operands are NaNs. -/
theorem mul_dest (c d : Dest) (a b : Double) (hab : (a.isNaN && b.isNaN) = false) :
    mul c a b = mul d a b := by
  unfold mul
  by_cases h : (a.isNaN || b.isNaN) = true
  · simp only [h, if_true]
    exact nanResult_dest c d a b h hab
  · have h0 : (a.isNaN || b.isNaN) = false := by simpa using h
    simp only [h0, Bool.false_eq_true, if_false]

/-- The destination operand of a sum matters only when both operands are NaNs. -/
theorem add_dest (c d : Dest) (a b : Double) (hab : (a.isNaN && b.isNaN) = false) :
    add c a b = add d a b := by
  unfold add
  by_cases h : (a.isNaN || b.isNaN) = true
  · simp only [h, if_true]
    exact nanResult_dest c d a b h hab
  · have h0 : (a.isNaN || b.isNaN) = false := by simpa using h
    simp only [h0, Bool.false_eq_true, if_false]

/-- A product of an operand with itself does not depend on the destination. -/
theorem mul_self_dest (c d : Dest) (a : Double) : mul c a a = mul d a a := by
  unfold mul
  by_cases h : a.isNaN = true
  · cases c <;> cases d <;> simp [h, nanResult]
  · simp [h]

/-- A product of two NaNs is a NaN. -/
theorem isNaN_mul_of_both (c : Dest) (a b : Double) (hab : (a.isNaN && b.isNaN) = true) :
    (mul c a b).isNaN = true := by
  have h : (a.isNaN || b.isNaN) = true := by
    simp only [Bool.and_eq_true] at hab
    simp [hab.1]
  unfold mul
  simp only [h, if_true]
  exact isNaN_nanResult c a b h

/-- A datum compares equal to itself under the built-in `==` unless it is a NaN. -/
theorem eq_self (a : Double) : Double.eq a a = !a.isNaN := by
  unfold Double.eq
  by_cases h : a.isNaN = true <;> simp [h]

/-- The built-in `==` on two evaluations of the same product: true unless the
product is a NaN. -/
theorem eq_mul_dest (c d : Dest) (a b : Double) :
    Double.eq (mul d a b) (mul c a b) = !(mul c a b).isNaN := by
  by_cases hab : (a.isNaN && b.isNaN) = true
  · have h1 := isNaN_mul_of_both c a b hab
    have h2 := isNaN_mul_of_both d a b hab
    simp [Double.eq, h1, h2]
  · have h3 : (a.isNaN && b.isNaN) = false := by simpa using hab
    rw [mul_dest d c a b h3]
    exact eq_self _

end Double

namespace DPoint2

theorem boolToInt_ne_zero (b : Bool) : boolToInt b ≠ 0 ↔ b = true := by
  cases b <;> simp [boolToInt]

theorem boolToInt_eq_zero (b : Bool) : boolToInt b = 0 ↔ b = false := by
  cases b <;> simp [boolToInt]

/-- C3: for all points `a` and `b`, `a == b` returns nonzero if and only if
`a.x` equals `b.x` and `a.y` equals `b.y` (the `==` of `double`), and returns 0
otherwise. -/
theorem operatorEq_nonzero_iff (a b : DPoint2) :
    ((a.operatorEq b).ret ≠ 0 ↔ (Double.eq a.x b.x = true ∧ Double.eq a.y b.y = true)) ∧
    ((a.operatorEq b).ret = 0 ↔ ¬ (Double.eq a.x b.x = true ∧ Double.eq a.y b.y = true)) := by
  have hx := Double.eq_swap b.x a.x
  have hy := Double.eq_swap b.y a.y
  constructor
  · simp only [operatorEq, boolToInt_ne_zero, Bool.and_eq_true, hx, hy]
  · simp only [operatorEq, boolToInt_eq_zero, hx, hy]
    cases Double.eq a.x b.x <;> cases Double.eq a.y b.y <;> simp

/-- C4: for all points `a` and `b`, `a != b` is nonzero exactly when `a == b` is
0, and 0 exactly when `a == b` is nonzero. -/
theorem operatorNe_nonzero_iff_operatorEq_zero (a b : DPoint2) :
    ((a.operatorNe b).ret ≠ 0 ↔ (a.operatorEq b).ret = 0) ∧
    ((a.operatorNe b).ret = 0 ↔ (a.operatorEq b).ret ≠ 0) := by
  simp only [operatorNe, operatorEq, boolToInt_ne_zero, boolToInt_eq_zero,
    Double.ne_eq_not_eq]
  cases Double.eq b.x a.x <;> cases Double.eq b.y a.y <;> simp

/-- C5: for every point `p`, the subscript operator, const and non-const alike,
returns (a reference to) `p.x` for index 0 and `p.y` for index 1, and for these
two indices the debug assertion `(i >= 0) && (i <= 1)` holds. A write through
the non-const reference changes that component only. -/
theorem operatorIndex_zero_one (p : DPoint2) :
    p.get (operatorIndex 0).ref = p.x ∧ p.get (operatorIndex 1).ref = p.y ∧
    p.get (operatorIndexConst 0).ref = p.x ∧ p.get (operatorIndexConst 1).ref = p.y ∧
    (operatorIndex 0).asserted = true ∧ (operatorIndex 1).asserted = true ∧
    (operatorIndexConst 0).asserted = true ∧ (operatorIndexConst 1).asserted = true ∧
    (∀ v : Double, p.set (operatorIndex 0).ref v = { x := v, y := p.y }) ∧
    (∀ v : Double, p.set (operatorIndex 1).ref v = { x := p.x, y := v }) := by
  refine ⟨rfl, rfl, rfl, rfl, ?_, ?_, ?_, ?_, fun _ => rfl, fun _ => rfl⟩ <;> decide

/-- C6: for all points `a` and `b`, `a + b` is the point
`(a.x + b.x, a.y + b.y)`, and neither operand is changed; this for either
destination operand of each of the two sums. -/
theorem operatorAdd_componentwise (a b : DPoint2) (dx dy : Double.Dest) :
    (a.operatorAdd dx dy b).ret
      = { x := Double.add dx a.x b.x, y := Double.add dy a.y b.y } ∧
    (a.operatorAdd dx dy b).self = a ∧ (a.operatorAdd dx dy b).arg = b :=
  ⟨rfl, rfl, rfl⟩

/-- C7: for all points `a` and `b`, `a - b` is the point
`(a.x - b.x, a.y - b.y)`: the argument is subtracted from the left operand, so
`(1, 0) - (0, 1)` is `(1, -1)`. -/
theorem operatorSub_componentwise (a b : DPoint2) :
    (a.operatorSub b).ret = { x := Double.sub a.x b.x, y := Double.sub a.y b.y } ∧
    (operatorSub { x := Double.one, y := Double.zero false }
        { x := Double.zero false, y := Double.one }).ret
      = { x := Double.one, y := Double.neg Double.one } := by
  refine ⟨rfl, ?_⟩
  decide!

/-- C8, as stated, fails: with `a = (NaN 7FF8…01, NaN FFF4…00)` and
`b = (NaN FFF8…02, NaN 7FF8…0123)`, where the products of `a * b` are compiled
with the left operand as destination and those of `a *= b` with the right one,
`a * b` is `(7FF8…01, FFFC…00)` but `a *= b` stores `(FFF8…02, 7FF8…0123)`. -/
theorem operatorMulAssign_ne_operatorMul :
    ((operatorMul Double.Dest.left Double.Dest.left
        { x := Double.ofBits 0x7FF8000000000001, y := Double.ofBits 0xFFF4000000000000 }
        { x := Double.ofBits 0xFFF8000000000002, y := Double.ofBits 0x7FF8000000000123 }).ret
      = { x := Double.ofBits 0x7FF8000000000001, y := Double.ofBits 0xFFFC000000000000 }) ∧
    ((operatorMulAssign Double.Dest.right Double.Dest.right
        { x := Double.ofBits 0x7FF8000000000001, y := Double.ofBits 0xFFF4000000000000 }
        { x := Double.ofBits 0xFFF8000000000002, y := Double.ofBits 0x7FF8000000000123 }).self
      = { x := Double.ofBits 0xFFF8000000000002, y := Double.ofBits 0x7FF8000000000123 }) ∧
    ¬ ((operatorMulAssign Double.Dest.right Double.Dest.right
        { x := Double.ofBits 0x7FF8000000000001, y := Double.ofBits 0xFFF4000000000000 }
        { x := Double.ofBits 0xFFF8000000000002, y := Double.ofBits 0x7FF8000000000123 }).self
      = (operatorMul Double.Dest.left Double.Dest.left
        { x := Double.ofBits 0x7FF8000000000001, y := Double.ofBits 0xFFF4000000000000 }
        { x := Double.ofBits 0xFFF8000000000002, y := Double.ofBits 0x7FF8000000000123 }).ret) := by
  decide!

/-- C8, amended: for all points `a` and `b`, `a * b` is the member-wise product
`(a.x * b.x, a.y * b.y)`, and `a *= b` stores the member-wise product
`(a.x * b.x, a.y * b.y)` in `a` (and returns it). The stored point is the very
point `a * b` returns whenever in neither component both operands are NaNs, for
any destination operands (`cx`, `cy` in `a * b`; `dx`, `dy` in `a *= b`);
otherwise whenever the two are compiled with the same destination operands; and
always when `b` is the object `a` itself. -/
theorem operatorMul_memberwise (a b : DPoint2) (cx cy dx dy : Double.Dest) :
    (a.operatorMul cx cy b).ret
      = { x := Double.mul cx a.x b.x, y := Double.mul cy a.y b.y } ∧
    (a.operatorMulAssign dx dy b).self
      = { x := Double.mul dx a.x b.x, y := Double.mul dy a.y b.y } ∧
    (a.operatorMulAssign dx dy b).ret = (a.operatorMulAssign dx dy b).self ∧
    ((a.x.isNaN && b.x.isNaN) = false ∧ (a.y.isNaN && b.y.isNaN) = false →
      (a.operatorMulAssign dx dy b).self = (a.operatorMul cx cy b).ret) ∧
    (a.operatorMulAssign cx cy b).self = (a.operatorMul cx cy b).ret ∧
    (a.operatorMulAssignSelf dx dy).self = (a.operatorMul cx cy a).ret := by
  refine ⟨rfl, rfl, rfl, ?_, rfl, ?_⟩
  · intro h
    show ({ x := Double.mul dx a.x b.x, y := Double.mul dy a.y b.y } : DPoint2)
      = { x := Double.mul cx a.x b.x, y := Double.mul cy a.y b.y }
    rw [Double.mul_dest dx cx a.x b.x h.1, Double.mul_dest dy cy a.y b.y h.2]
  · show ({ x := Double.mul dx a.x a.x, y := Double.mul dy a.y a.y } : DPoint2)
      = { x := Double.mul cx a.x a.x, y := Double.mul cy a.y a.y }
    rw [Double.mul_self_dest dx cx a.x, Double.mul_self_dest dy cy a.y]

/-- Witness for C8: `a = (0.1, 3.0)`, `b = (3.0, 0.1)`, no NaN among the
operands; `a *= b` compiled with the right operands as destination stores the
point that `a * b` compiled with the left ones returns. -/
theorem operatorMul_memberwise_witness :
    (((Double.ofBits 0x3FB999999999999A).isNaN && (Double.ofBits 0x4008000000000000).isNaN) = false ∧
      ((Double.ofBits 0x4008000000000000).isNaN && (Double.ofBits 0x3FB999999999999A).isNaN) = false) ∧
    (operatorMulAssign Double.Dest.right Double.Dest.right
        { x := Double.ofBits 0x3FB999999999999A, y := Double.ofBits 0x4008000000000000 }
        { x := Double.ofBits 0x4008000000000000, y := Double.ofBits 0x3FB999999999999A }).self
      = (operatorMul Double.Dest.left Double.Dest.left
        { x := Double.ofBits 0x3FB999999999999A, y := Double.ofBits 0x4008000000000000 }
        { x := Double.ofBits 0x4008000000000000, y := Double.ofBits 0x3FB999999999999A }).ret :=
  ⟨⟨by decide, by decide⟩,
   (operatorMul_memberwise
      { x := Double.ofBits 0x3FB999999999999A, y := Double.ofBits 0x4008000000000000 }
      { x := Double.ofBits 0x4008000000000000, y := Double.ofBits 0x3FB999999999999A }
      Double.Dest.left Double.Dest.left Double.Dest.right Double.Dest.right).2.2.2.1
     ⟨by decide, by decide⟩⟩

/-- C9, as stated, fails. With `p = (NaN 7FF8…01, 1.0)` and `m = NaN FFF8…02`,
`m * p` compiled with the left operand of `a.x*f` as destination and `p * m`
with the right one are different points: `(7FF8…01, FFF8…02)` and
`(FFF8…02, FFF8…02)`. And with `p = (+inf, 1.0)` and `m = 0.0`, where both
products are the same `(NaN, 0.0)`, `operator==` on them returns 0. -/
theorem operatorMulScalarLeft_ne_operatorMulScalarRight :
    ¬ (operatorMulScalarLeft Double.Dest.left Double.Dest.left
          (Double.ofBits 0xFFF8000000000002)
          { x := Double.ofBits 0x7FF8000000000001, y := Double.one }
        = operatorMulScalarRight Double.Dest.right Double.Dest.right
          { x := Double.ofBits 0x7FF8000000000001, y := Double.one }
          (Double.ofBits 0xFFF8000000000002)) ∧
    (operatorEq
        (operatorMulScalarLeft Double.Dest.left Double.Dest.left (Double.zero false)
          { x := Double.inf false, y := Double.one })
        (operatorMulScalarRight Double.Dest.left Double.Dest.left
          { x := Double.inf false, y := Double.one } (Double.zero false))).ret = 0 := by
  decide!

/-- C9, amended: for every point `p` and scalar `m`, both `m * p` and `p * m`
compute `(p.x * m, p.y * m)`. The two results are the same point whenever `m`
and a component of `p` are not both NaNs, for any destination operands (`cx`,
`cy` in `m * p`; `dx`, `dy` in `p * m`), and `operator==` on the two results
returns nonzero exactly when neither product is a NaN. -/
theorem operatorMulScalar_sides (p : DPoint2) (m : Double) (cx cy dx dy : Double.Dest) :
    operatorMulScalarLeft cx cy m p
      = { x := Double.mul cx p.x m, y := Double.mul cy p.y m } ∧
    operatorMulScalarRight dx dy p m
      = { x := Double.mul dx p.x m, y := Double.mul dy p.y m } ∧
    ((p.x.isNaN && m.isNaN) = false ∧ (p.y.isNaN && m.isNaN) = false →
      operatorMulScalarLeft cx cy m p = operatorMulScalarRight dx dy p m) ∧
    (((operatorMulScalarLeft cx cy m p).operatorEq (operatorMulScalarRight dx dy p m)).ret ≠ 0 ↔
      ((Double.mul cx p.x m).isNaN = false ∧ (Double.mul cy p.y m).isNaN = false)) := by
  refine ⟨rfl, rfl, ?_, ?_⟩
  · intro h
    show ({ x := Double.mul cx p.x m, y := Double.mul cy p.y m } : DPoint2)
      = { x := Double.mul dx p.x m, y := Double.mul dy p.y m }
    rw [Double.mul_dest cx dx p.x m h.1, Double.mul_dest cy dy p.y m h.2]
  · simp only [operatorEq, operatorMulScalarLeft, operatorMulScalarRight, ctorXY,
      boolToInt_ne_zero, Bool.and_eq_true, Double.eq_mul_dest, Bool.not_eq_true']

/-- Witness for C9: `p = (0.1, 3.0)` and `m = 3.0`, no NaN among the operands;
`m * p` and `p * m` compiled with opposite destination operands are the same
point. -/
theorem operatorMulScalar_sides_witness :
    (((Double.ofBits 0x3FB999999999999A).isNaN && (Double.ofBits 0x4008000000000000).isNaN) = false ∧
      ((Double.ofBits 0x4008000000000000).isNaN && (Double.ofBits 0x4008000000000000).isNaN) = false) ∧
    operatorMulScalarLeft Double.Dest.left Double.Dest.left (Double.ofBits 0x4008000000000000)
        { x := Double.ofBits 0x3FB999999999999A, y := Double.ofBits 0x4008000000000000 }
      = operatorMulScalarRight Double.Dest.right Double.Dest.right
        { x := Double.ofBits 0x3FB999999999999A, y := Double.ofBits 0x4008000000000000 }
        (Double.ofBits 0x4008000000000000) :=
  ⟨⟨by decide, by decide⟩,
   (operatorMulScalar_sides
      { x := Double.ofBits 0x3FB999999999999A, y := Double.ofBits 0x4008000000000000 }
      (Double.ofBits 0x4008000000000000)
      Double.Dest.left Double.Dest.left Double.Dest.right Double.Dest.right).2.2.1
     ⟨by decide, by decide⟩⟩

/-- C10: for every point `p` and scalar `d`, `p / d` is the point
`(p.x / d, p.y / d)`. The divisor is not checked: a zero divisor is divided by
like any other, so `(1, -1) / 0.0` is `(+inf, -inf)` and `(0, 0) / 0.0` is
`(NaN, NaN)`. -/
theorem operatorDivScalar_componentwise (p : DPoint2) (d : Double) :
    operatorDivScalar p d = { x := Double.div p.x d, y := Double.div p.y d } ∧
    operatorDivScalar { x := Double.one, y := Double.neg Double.one } (Double.zero false)
      = { x := Double.inf false, y := Double.inf true } ∧
    operatorDivScalar { x := Double.zero false, y := Double.zero false } (Double.zero false)
      = { x := Double.defaultNaN, y := Double.defaultNaN } := by
  refine ⟨rfl, ?_, ?_⟩ <;> decide

end DPoint2

namespace Double

/-- Unary minus applied twice gives the datum back. -/
theorem neg_neg_self (a : Double) : Double.neg (Double.neg a) = a := by
  cases a
  simp [Double.neg]

/-- Conversion of small integers: `0` is `0.0`, `1` is `1.0`, `-3` is `-3.0`. -/
theorem ofInt_examples :
    ofInt 0 = zero false ∧ ofInt 1 = one ∧ (ofInt (-3)).toBits = 0xC008000000000000 := by
  decide!

end Double

namespace DPoint2

/-- C11: for every point `p`, unary minus returns `(-p.x, -p.y)`, negating both
components, and leaves `p` itself unchanged; so `-(0, 0)` is `(-0.0, -0.0)`. -/
theorem operatorNeg_componentwise (p : DPoint2) :
    p.operatorNeg.ret = { x := Double.neg p.x, y := Double.neg p.y } ∧
    p.operatorNeg.self = p ∧
    ctor.operatorNeg.ret = { x := Double.zero true, y := Double.zero true } := by
  refine ⟨rfl, rfl, ?_⟩
  decide

/-- C12: for every point `p`, unary plus returns the point unaltered: `+p` has
the same `x` and `y` as `p` (and `p` stays as it was). -/
theorem operatorPos_unaltered (p : DPoint2) :
    p.operatorPos.ret.x = p.x ∧ p.operatorPos.ret.y = p.y ∧ p.operatorPos.ret = p ∧
    p.operatorPos.self = p :=
  ⟨rfl, rfl, rfl, rfl⟩

/-- C13: the default constructor initializes both components to zero, and
`DPoint2(X, Y)` yields a point whose `x` is `X` and whose `y` is `Y`; so
`DPoint2()` equals `DPoint2(0, 0)` under `operator==`, whichever side it is on. -/
theorem ctor_zero_ctorXY (X Y : Double) :
    ctor.x = Double.zero false ∧ ctor.y = Double.zero false ∧
    (ctorXY X Y).x = X ∧ (ctorXY X Y).y = Y ∧
    ctor = ctorXY (Double.ofInt 0) (Double.ofInt 0) ∧
    (ctor.operatorEq (ctorXY (Double.ofInt 0) (Double.ofInt 0))).ret = 1 ∧
    ((ctorXY (Double.ofInt 0) (Double.ofInt 0)).operatorEq ctor).ret = 1 := by
  refine ⟨rfl, rfl, rfl, rfl, ?_, ?_, ?_⟩ <;> decide

end DPoint2

namespace MaxSDK
namespace TexmapThreadSafe

/-- C14: `TexmapThreadSafe::GetID` returns the interface id of `TexmapThreadSafe`,
`ITEXMAP_THREAD_SAFE`, which is `Interface_ID(0x47956311, 0x2216740a)`; the
result is the same for every state of every implementing object, and the call
leaves the object as it was. -/
theorem GetID_is_ITEXMAP_THREAD_SAFE {σ : Type} (self : σ) :
    (GetID self).ret = ITEXMAP_THREAD_SAFE ∧
    (GetID self).ret = { a := 0x47956311, b := 0x2216740a } ∧
    (∀ (τ : Type) (other : τ), (GetID other).ret = (GetID self).ret) ∧
    (GetID self).self = self :=
  ⟨rfl, rfl, fun _ _ => rfl, rfl⟩

end TexmapThreadSafe

namespace CustomFileStreamAPI

/-- C15, as stated, fails: the header a default-constructed
`CustomFileStreamHeader` holds does not have 5 fields. -/
theorem CustomFileStreamHeader.fields_length_ne_five :
    ¬ (CustomFileStreamHeader.ctor.fields.length = 5) := by
  decide

/-- C15, amended: the stream header has 3 fields, a `WORD` version number (1 by
default), a private-flag `DWORD` and a public-flag `DWORD` (both 0 by default),
80 bits in all; the three fields are the whole header. -/
theorem CustomFileStreamHeader.fields_three (h : CustomFileStreamHeader) :
    h.fields.length = 3 ∧
    h.fields = [HeaderField.word h.mVersion, HeaderField.dword h.mPrivateFlags,
      HeaderField.dword h.mPublicFlags] ∧
    (h.fields.map HeaderField.bits).sum = 80 ∧
    (∀ k : CustomFileStreamHeader, k.fields = h.fields ↔ k = h) ∧
    CustomFileStreamHeader.ctor.fields
      = [HeaderField.word 1, HeaderField.dword 0, HeaderField.dword 0] := by
  refine ⟨rfl, rfl, rfl, ?_, rfl⟩
  intro k
  constructor
  · intro hk
    cases h
    cases k
    simp only [CustomFileStreamHeader.fields, List.cons.injEq, HeaderField.word.injEq,
      HeaderField.dword.injEq, and_true] at hk
    obtain ⟨h1, h2, h3⟩ := hk
    subst h1 h2 h3
    rfl
  · intro hk
    rw [hk]

end CustomFileStreamAPI
end MaxSDK
